import Mathlib

/-!
Verification of the media-backend dual-store workflow.

Shallow embedding of the Express handlers in `src/index.js` and the blob
helpers in `src/blob.js`.  Backend effects (Azure Blob Storage, Azure SQL)
are modelled as explicit state (`Store`) together with an event trace of
the external calls a handler performs; fallibility of each backend call is
injected through explicit boolean / numeric fault parameters.
-/

namespace MediaBackend

/-! ## JS string primitives -/

/-- JS `String.prototype.includes(needle)`: substring test.  Faithful to
ECMAScript for every needle (the empty needle is contained in every
string, and `[] <:+: l` always holds). -/
def jsIncludes (needle hay : String) : Bool :=
  decide (needle.data <:+: hay.data)

/-- One scan of JS `String.prototype.split(sep)` over character lists for a
non-empty separator: leftmost, non-overlapping matches.  `fuel` bounds the
recursion; callers pass the length of the list, which suffices because each
step consumes at least one character. -/
def jsSplitList (sep : List Char) : Nat → List Char → List (List Char)
  | _, [] => [[]]
  | 0, l => [l]
  | fuel + 1, a :: l =>
    if sep.isPrefixOf (a :: l) then
      [] :: jsSplitList sep fuel ((a :: l).drop sep.length)
    else
      match jsSplitList sep fuel l with
      | [] => [[a]]
      | x :: xs => (a :: x) :: xs

/-- JS `String.prototype.split(sep)` for a non-empty string separator. -/
def jsSplitOn (sep s : String) : List String :=
  (jsSplitList sep.data s.data.length s.data).map (fun cs => String.mk cs)

/-- JS truthiness of a possibly-absent string value (`undefined` and the
empty string are falsy). -/
def jsTruthy : Option String → Bool
  | none => false
  | some s => !s.isEmpty

/-- JS falsiness of a possibly-absent string value. -/
def jsFalsy (o : Option String) : Bool := !jsTruthy o

/-- JS `String.prototype.trim()`: strip leading and trailing whitespace
(kernel-computable model over character lists). -/
def jsTrim (s : String) : String :=
  String.mk (((s.data.dropWhile Char.isWhitespace).reverse.dropWhile
    Char.isWhitespace).reverse)

/-- JS `v || null` applied to an optional string field: a falsy value
(absent or empty string) becomes `null`, anything else passes through. -/
def jsOrNull (o : Option String) : Option String :=
  if jsTruthy o then o else none

/-! ## Blob-name extraction (`deleteImageFromBlob` in `src/blob.js`):
the code guards on `includes(CONTAINER_NAME)`, splits the input on the
segment and, when the split has more than one field, deletes field 1. -/

/-- The key computation of `deleteImageFromBlob`: the blob name deleted for
a given input (bare key or URL), given the configured container name. -/
def extractBlobName (containerName input : String) : String :=
  if jsIncludes containerName input then
    let parts := jsSplitOn ("/" ++ containerName ++ "/") input
    if h : 1 < parts.length then parts.get ⟨1, h⟩ else input
  else input

/-- Follows the words of the claim: when the input contains the container
name as the path segment `/{container}/`, the key is the ENTIRE remainder
of the input after that (first) segment; otherwise the whole input. -/
def claimDeleteKey (containerName input : String) : String :=
  let seg := "/" ++ containerName ++ "/"
  let parts := jsSplitOn seg input
  if 1 < parts.length then String.intercalate seg (parts.drop 1) else input

/-- Follows the amended words: when splitting the input on the segment
`/{container}/` yields more than one field, the key is the field
immediately after the first occurrence of the segment (the remainder
truncated at the next occurrence of the segment, if any); otherwise the
whole input. -/
def amendedDeleteKey (containerName input : String) : String :=
  let seg := "/" ++ containerName ++ "/"
  let parts := jsSplitOn seg input
  if h : 1 < parts.length then parts.get ⟨1, h⟩ else input

/-! ## Data model

`Photos(id PK, title, caption NULL, location NULL, image_url, created_at)`;
`Comments(id PK, photo_id FK -> Photos(id) ON DELETE CASCADE, comment_text,
created_at)`; plus the set of object keys held by the blob container. -/

structure Photo where
  id : Nat
  title : String
  caption : Option String
  location : Option String
  image_url : Option String
  created_at : Nat
  deriving DecidableEq, Repr

structure Comment where
  id : Nat
  photo_id : Nat
  comment_text : String
  created_at : Nat
  deriving DecidableEq, Repr

/-- Combined state of the two backends: the relational rows and the blob
container's object keys, plus the identity counters the database assigns. -/
structure Store where
  photos : List Photo
  comments : List Comment
  blobs : List String
  nextPhotoId : Nat
  nextCommentId : Nat
  deriving DecidableEq, Repr

/-- External calls a handler performs, in order. -/
inductive Event where
  | putBlob (name : String)
  | deleteBlob (name : String)
  | pool
  | insertPhotoQ
  | selectImageUrlQ (id : Nat)
  | deletePhotoQ (id : Nat)
  | insertCommentQ (photoId : Nat)
  deriving DecidableEq, Repr

/-! ## Object Store Client (`src/blob.js`) -/

/-- The backend `blockBlobClient.deleteIfExists()` call: removes the object
under `key` when present; deleting an absent key is a success.  `fault`
injects an I/O failure of the backend. -/
def blobDeleteIfExists (fault : Bool) (key : String) (blobs : List String) :
    Except String (List String) :=
  if fault then Except.error "backend error"
  else Except.ok (blobs.filter (fun k => k ≠ key))

/-- Model of `deleteImageFromBlob(blobNameOrUrl)` from `src/blob.js`.  When the
client was never initialized it logs and returns; otherwise it extracts the
blob name, calls `deleteIfExists`, and catches every backend error (logging
only).  The `Except` result records whether the function can throw to its
caller at all. -/
def deleteImageFromBlob (containerName : String) (initialized fault : Bool)
    (blobNameOrUrl : String) (blobs : List String) :
    Except String (List String × List Event) :=
  if !initialized then Except.ok (blobs, [])
  else
    let blobName := extractBlobName containerName blobNameOrUrl
    match blobDeleteIfExists fault blobName blobs with
    | Except.ok bs => Except.ok (bs, [Event.deleteBlob blobName])
    | Except.error _ => Except.ok (blobs, [Event.deleteBlob blobName])

/-- Model of `uploadImageToBlob(buffer, originalName, mimeType)` from `src/blob.js`.
`token` stands for the generated `Date.now()-random` prefix of the blob
name; the extension is the last `.`-separated field of the original name.
Returns the blob URL or the thrown error, together with the new container
state and the backend calls made. -/
def uploadImageToBlob (endpoint containerName : String)
    (initialized fault : Bool) (token : String)
    (originalName : String) (blobs : List String) :
    Except String String × List String × List Event :=
  if !initialized then
    (Except.error "Blob storage client not initialized", blobs, [])
  else
    let extension := (jsSplitOn "." originalName).getLastD originalName
    let blobName := token ++ "." ++ extension
    if fault then (Except.error "upload failed", blobs, [Event.putBlob blobName])
    else (Except.ok (endpoint ++ "/" ++ containerName ++ "/" ++ blobName),
          blobName :: blobs, [Event.putBlob blobName])

/-! ## HTTP handlers (`src/index.js`) -/

/-- The uploaded file as multer presents it (`req.file`). -/
structure UploadFile where
  buffer : List Nat
  originalname : String
  mimetype : String
  deriving DecidableEq, Repr

inductive CreateRes where
  | invalidInput (msg : String)
  | created (p : Photo)
  | serverError
  deriving DecidableEq, Repr

/-- The `POST /photos` handler from `src/index.js`: validate `req.file` and
`req.body.title`, upload the image to blob storage, then insert the
metadata row (`caption || null`, `location || null`).  Any thrown error is
caught and mapped to a 500 (`serverError`).  `now` is the timestamp the
database assigns to `created_at`. -/
def createPhoto (endpoint containerName : String)
    (blobInitialized putFault insertFault : Bool) (token : String) (now : Nat)
    (title caption location : Option String) (file : Option UploadFile)
    (s : Store) : CreateRes × Store × List Event :=
  match file with
  | none => (CreateRes.invalidInput "No image file provided", s, [])
  | some f =>
    if jsFalsy title then (CreateRes.invalidInput "Title is required", s, [])
    else
      match uploadImageToBlob endpoint containerName blobInitialized putFault
          token f.originalname s.blobs with
      | (Except.error _, blobs1, evs1) =>
        (CreateRes.serverError, { s with blobs := blobs1 }, evs1)
      | (Except.ok url, blobs1, evs1) =>
        let s1 := { s with blobs := blobs1 }
        if insertFault then
          (CreateRes.serverError, s1, evs1 ++ [Event.pool, Event.insertPhotoQ])
        else
          let p : Photo :=
            { id := s1.nextPhotoId
              title := title.getD ""
              caption := jsOrNull caption
              location := jsOrNull location
              image_url := some url
              created_at := now }
          (CreateRes.created p,
           { s1 with photos := s1.photos ++ [p], nextPhotoId := s1.nextPhotoId + 1 },
           evs1 ++ [Event.pool, Event.insertPhotoQ])

inductive DeleteRes where
  | notFound
  | deleted
  | serverError
  deriving DecidableEq, Repr

/-- The `DELETE /photos/:id` handler from `src/index.js`: select the row's
`image_url`; 404 when no row matches; otherwise delete the blob when the
URL is truthy (best effort), then delete the row (the database cascades the
comment deletion).  `selectFault` / `deleteFault` inject relational-store
errors on the two statements; a thrown error maps to a 500. -/
def deletePhoto (containerName : String)
    (blobInitialized blobFault selectFault deleteFault : Bool)
    (id : Nat) (s : Store) : DeleteRes × Store × List Event :=
  if selectFault then
    (DeleteRes.serverError, s, [Event.pool, Event.selectImageUrlQ id])
  else
    match s.photos.find? (fun p => p.id == id) with
    | none => (DeleteRes.notFound, s, [Event.pool, Event.selectImageUrlQ id])
    | some p =>
      let step2 : Option (List String × List Event) :=
        if jsTruthy p.image_url then
          match deleteImageFromBlob containerName blobInitialized blobFault
              (p.image_url.getD "") s.blobs with
          | Except.ok r => some r
          | Except.error _ => none
        else some (s.blobs, [])
      match step2 with
      | none =>
        (DeleteRes.serverError, s, [Event.pool, Event.selectImageUrlQ id])
      | some (blobs1, evs1) =>
        let s1 := { s with blobs := blobs1 }
        if deleteFault then
          (DeleteRes.serverError, s1,
           [Event.pool, Event.selectImageUrlQ id] ++ evs1 ++ [Event.deletePhotoQ id])
        else
          (DeleteRes.deleted,
           { s1 with
               photos := s1.photos.filter (fun q => q.id ≠ id)
               comments := s1.comments.filter (fun c => c.photo_id ≠ id) },
           [Event.pool, Event.selectImageUrlQ id] ++ evs1 ++ [Event.deletePhotoQ id])

/-- The `INSERT INTO Comments` statement with the foreign-key constraint of the schema:
when the photo row exists the comment is inserted and returned; when it
does not, the database raises error number 547 (FK violation).  `dbFault`
injects an arbitrary store error (by its native error number) instead. -/
def insertComment (dbFault : Option Nat) (photoId : Nat) (text : String)
    (now : Nat) (s : Store) : Except Nat (Comment × Store) :=
  match dbFault with
  | some n => Except.error n
  | none =>
    if s.photos.any (fun p => p.id == photoId) then
      let c : Comment :=
        { id := s.nextCommentId, photo_id := photoId,
          comment_text := text, created_at := now }
      Except.ok (c, { s with comments := s.comments ++ [c],
                             nextCommentId := s.nextCommentId + 1 })
    else Except.error 547

inductive CommentRes where
  | invalidInput
  | notFound
  | created (c : Comment)
  | serverError
  deriving DecidableEq, Repr

/-- The `POST /photos/:id/comments` handler from `src/index.js`: reject falsy
or whitespace-only `comment_text` before touching the store; insert the
comment; the error with number 547 maps to a 404, every other store error
to a 500. -/
def addComment (dbFault : Option Nat) (photoId : Nat)
    (comment_text : Option String) (now : Nat) (s : Store) :
    CommentRes × Store × List Event :=
  if jsFalsy comment_text || (jsTrim (comment_text.getD "") == "") then
    (CommentRes.invalidInput, s, [])
  else
    match insertComment dbFault photoId (comment_text.getD "") now s with
    | Except.ok (c, s1) =>
      (CommentRes.created c, s1, [Event.pool, Event.insertCommentQ photoId])
    | Except.error n =>
      if n == 547 then
        (CommentRes.notFound, s, [Event.pool, Event.insertCommentQ photoId])
      else
        (CommentRes.serverError, s, [Event.pool, Event.insertCommentQ photoId])

/-- The `GET /photos` query: `SELECT * FROM Photos ORDER BY created_at DESC`. -/
def selectPhotos (s : Store) : List Photo :=
  s.photos.mergeSort (fun a b => decide (b.created_at ≤ a.created_at))

/-! ## Lemmas about `jsSplitList` -/

theorem isPrefix_of_isPrefixOf {sep l : List Char} (h : sep.isPrefixOf l = true) :
    sep <+: l := by
  simpa using h

theorem isInfix_cons {l₁ l₂ : List Char} {a : Char} (h : l₁ <:+: l₂) :
    l₁ <:+: a :: l₂ := by
  obtain ⟨s, t, rfl⟩ := h
  exact ⟨a :: s, t, rfl⟩

/-- If the separator splits a list into more than one field, the separator
occurs in the list. -/
theorem isInfix_of_one_lt_jsSplitList (sep : List Char) :
    ∀ (fuel : Nat) (l : List Char),
      1 < (jsSplitList sep fuel l).length → sep <:+: l := by
  intro fuel
  induction fuel with
  | zero =>
    intro l hl
    cases l with
    | nil => simp [jsSplitList] at hl
    | cons a l => simp [jsSplitList] at hl
  | succ fuel ih =>
    intro l hl
    cases l with
    | nil => simp [jsSplitList] at hl
    | cons a l =>
      by_cases hp : sep.isPrefixOf (a :: l) = true
      · exact (isPrefix_of_isPrefixOf hp).isInfix
      · rw [jsSplitList, if_neg hp] at hl
        rcases hsplit : jsSplitList sep fuel l with _ | ⟨x, xs⟩
        · rw [hsplit] at hl
          simp at hl
        · rw [hsplit] at hl
          simp at hl
          have : 1 < (jsSplitList sep fuel l).length := by
            rw [hsplit]
            simpa using hl
          exact isInfix_cons (ih l this)

/-- The container name occurs in any string in which the path segment
`/{container}/` occurs, hence the `includes` guard of the code is implied
by the split producing more than one field. -/
theorem jsIncludes_of_segment (containerName input : String)
    (h : 1 < (jsSplitOn ("/" ++ containerName ++ "/") input).length) :
    jsIncludes containerName input = true := by
  have hlen : 1 < (jsSplitList ("/" ++ containerName ++ "/").data
      input.data.length input.data).length := by
    simpa [jsSplitOn] using h
  have hseg : ("/" ++ containerName ++ "/").data <:+: input.data :=
    isInfix_of_one_lt_jsSplitList _ _ _ hlen
  have hsub : containerName.data <:+: ("/" ++ containerName ++ "/").data := by
    refine ⟨['/'], ['/'], ?_⟩
    simp [String.data_append]
  simpa [jsIncludes] using hsub.trans hseg

/-! ## C6: key extraction of the object-store delete -/

/-- C6, as stated, is false: when the `/{container}/` segment occurs twice
in the input, the code deletes only the field between the first and second
occurrence (`parts[1]` of the split), not the entire remainder after the
first segment as the claim says. -/
theorem c6_counterexample :
    extractBlobName "photos" "u/photos/a/photos/b.jpg" = "a" ∧
    claimDeleteKey "photos" "u/photos/a/photos/b.jpg" = "a/photos/b.jpg" ∧
    extractBlobName "photos" "u/photos/a/photos/b.jpg" ≠
      claimDeleteKey "photos" "u/photos/a/photos/b.jpg" := by
  refine ⟨by decide, by decide, by decide⟩

/-- C6 (amended): for every input to the object-store delete operation, if
splitting the input on the path segment `/{container}/` yields more than
one field, the key actually deleted is the field immediately after the
first occurrence of that segment (the remainder truncated at the next
occurrence of the segment, if any); otherwise the whole input is used as
the key. -/
theorem c6_delete_key_amended (containerName input : String) :
    extractBlobName containerName input = amendedDeleteKey containerName input := by
  unfold extractBlobName amendedDeleteKey
  by_cases h : jsIncludes containerName input = true
  · simp [h]
  · have h2 : ¬ 1 < (jsSplitOn ("/" ++ containerName ++ "/") input).length :=
      fun hgt => h (jsIncludes_of_segment containerName input hgt)
    simp only [Bool.not_eq_true] at h
    simp [h, h2]

/-! ## C7: the object-store delete never throws and is idempotent -/

/-- The function `deleteImageFromBlob` returns normally on every input and on every
backend outcome: the uninitialized-client case returns early and the
backend call is wrapped in a catch-all. -/
theorem deleteImageFromBlob_ok (containerName : String) (initialized fault : Bool)
    (blobNameOrUrl : String) (blobs : List String) :
    ∃ r, deleteImageFromBlob containerName initialized fault blobNameOrUrl blobs =
      Except.ok r := by
  unfold deleteImageFromBlob blobDeleteIfExists
  cases initialized <;> cases fault <;> simp

/-- C7: the object-store delete operation never throws to its caller — for
every input and every backend outcome it returns normally — and it is
idempotent: with a healthy backend, a second delete of the same input on
the state left by the first succeeds and changes nothing. -/
theorem c7_blob_delete_idempotent_never_throws
    (containerName blobNameOrUrl : String) (initialized fault : Bool)
    (blobs : List String) :
    (∃ r, deleteImageFromBlob containerName initialized fault blobNameOrUrl blobs =
      Except.ok r) ∧
    (∀ bs evs,
      deleteImageFromBlob containerName initialized false blobNameOrUrl blobs =
        Except.ok (bs, evs) →
      deleteImageFromBlob containerName initialized false blobNameOrUrl bs =
        Except.ok (bs, evs)) := by
  refine ⟨deleteImageFromBlob_ok containerName initialized fault blobNameOrUrl blobs, ?_⟩
  intro bs evs h
  unfold deleteImageFromBlob blobDeleteIfExists at h ⊢
  cases initialized with
  | false =>
    simp at h ⊢
    exact h.2
  | true =>
    simp at h ⊢
    obtain ⟨h1, h2⟩ := h
    subst h1
    subst h2
    simp [List.filter_filter]

/-- Witness for C7 at a concrete input: deleting `u/photos/x.jpg` removes
the object `x.jpg`; deleting it again succeeds and changes nothing. -/
theorem c7_witness :
    deleteImageFromBlob "photos" true false "u/photos/x.jpg" ["x.jpg", "y"] =
      Except.ok (["y"], [Event.deleteBlob "x.jpg"]) ∧
    deleteImageFromBlob "photos" true false "u/photos/x.jpg" ["y"] =
      Except.ok (["y"], [Event.deleteBlob "x.jpg"]) :=
  ⟨by simp [deleteImageFromBlob, blobDeleteIfExists]; decide,
   (c7_blob_delete_idempotent_never_throws "photos" "u/photos/x.jpg" true false
      ["x.jpg", "y"]).2 ["y"] [Event.deleteBlob "x.jpg"]
     (by simp [deleteImageFromBlob, blobDeleteIfExists]; decide)⟩

/-! ## C1: object-store put strictly precedes the metadata insert -/

/-- In the only trace shape of `createPhoto` that contains the metadata
insert, a blob put occurs strictly before it. -/
theorem exists_putBlob_before_insert (bn : String) (t₁ t₂ : List Event)
    (h : [Event.putBlob bn, Event.pool, Event.insertPhotoQ] =
      t₁ ++ Event.insertPhotoQ :: t₂) :
    ∃ n, Event.putBlob n ∈ t₁ := by
  rcases t₁ with _ | ⟨e1, _ | ⟨e2, _ | ⟨e3, t⟩⟩⟩
  · simp at h
  · simp at h
  · obtain ⟨h1, h2, h3⟩ := by simpa using h
    subst h1
    exact ⟨bn, by simp⟩
  · simp at h

/-- C1: in every create-photo call the object-store put is performed before
any metadata insert (every occurrence of the insert statement in the trace
is preceded by a put), and when the put fails — the blob client was never
initialized, or the backend write errors — the call aborts with an upload
failure: the response is the 500 failure, the state is unchanged, and the
`insertPhoto` statement is never executed. -/
theorem c1_put_first_and_abort_on_put_failure (endpoint containerName : String)
    (blobInitialized putFault insertFault : Bool) (token : String) (now : Nat)
    (title caption location : Option String) (file : Option UploadFile) (s : Store) :
    (∀ t₁ t₂,
      (createPhoto endpoint containerName blobInitialized putFault insertFault
          token now title caption location file s).2.2 =
        t₁ ++ Event.insertPhotoQ :: t₂ →
      ∃ n, Event.putBlob n ∈ t₁) ∧
    (∀ f, file = some f → jsFalsy title = false →
      blobInitialized = false ∨ putFault = true →
      (createPhoto endpoint containerName blobInitialized putFault insertFault
          token now title caption location file s).1 = CreateRes.serverError ∧
      (createPhoto endpoint containerName blobInitialized putFault insertFault
          token now title caption location file s).2.1 = s ∧
      Event.insertPhotoQ ∉
        (createPhoto endpoint containerName blobInitialized putFault insertFault
          token now title caption location file s).2.2) := by
  constructor
  · intro t₁ t₂ h
    cases file with
    | none => simp [createPhoto] at h
    | some f =>
      by_cases ht : jsFalsy title = true
      · simp [createPhoto, ht] at h
      · simp only [Bool.not_eq_true] at ht
        cases blobInitialized with
        | false => simp [createPhoto, uploadImageToBlob, ht] at h
        | true =>
          cases putFault with
          | true =>
            simp [createPhoto, uploadImageToBlob, ht] at h
            rcases t₁ with _ | ⟨e1, t⟩ <;> simp_all
          | false =>
            cases insertFault with
            | true =>
              simp [createPhoto, uploadImageToBlob, ht] at h
              exact exists_putBlob_before_insert _ t₁ t₂ (by simpa using h)
            | false =>
              simp [createPhoto, uploadImageToBlob, ht] at h
              exact exists_putBlob_before_insert _ t₁ t₂ (by simpa using h)
  · rintro f rfl ht hfail
    rcases hfail with rfl | rfl
    · simp [createPhoto, uploadImageToBlob, ht]
    · cases blobInitialized <;> simp [createPhoto, uploadImageToBlob, ht]

/-- Witness for C1 at a concrete input: with an uninitialized blob client
the call returns the 500 failure, leaves the store unchanged and never
runs the insert. -/
theorem c1_witness :
    (createPhoto "https://acc" "photos" false false false "tok" 7
        (some "t") none none (some ⟨[1], "a.jpg", "image/jpeg"⟩)
        ⟨[], [], [], 0, 0⟩).1 = CreateRes.serverError ∧
    (createPhoto "https://acc" "photos" false false false "tok" 7
        (some "t") none none (some ⟨[1], "a.jpg", "image/jpeg"⟩)
        ⟨[], [], [], 0, 0⟩).2.1 = ⟨[], [], [], 0, 0⟩ ∧
    Event.insertPhotoQ ∉
      (createPhoto "https://acc" "photos" false false false "tok" 7
        (some "t") none none (some ⟨[1], "a.jpg", "image/jpeg"⟩)
        ⟨[], [], [], 0, 0⟩).2.2 :=
  (c1_put_first_and_abort_on_put_failure "https://acc" "photos" false false false
      "tok" 7 (some "t") none none (some ⟨[1], "a.jpg", "image/jpeg"⟩)
      ⟨[], [], [], 0, 0⟩).2
    ⟨[1], "a.jpg", "image/jpeg"⟩ rfl (by decide) (Or.inl rfl)

/-! ## C5: input validation of create-photo -/

/-- C5, as stated, is false: a call with a present file whose byte buffer
is empty (zero-length) is not rejected — the handler only checks `!req.file`
and `!req.body.title` — so the put and the insert are both executed and the
photo is created. -/
theorem c5_counterexample :
    createPhoto "https://acc" "photos" true false false "tok" 7
        (some "t") none none (some ⟨[], "a.jpg", "image/jpeg"⟩)
        ⟨[], [], [], 0, 0⟩ =
      (CreateRes.created ⟨0, "t", none, none, some "https://acc/photos/tok.jpg", 7⟩,
       ⟨[⟨0, "t", none, none, some "https://acc/photos/tok.jpg", 7⟩], [],
        ["tok.jpg"], 1, 0⟩,
       [Event.putBlob "tok.jpg", Event.pool, Event.insertPhotoQ]) := by
  decide

/-- C5 (amended): every create-photo call with a missing file or a missing
(or empty, hence falsy) title is rejected with `InvalidInput` before any
object-store or metadata-store call is made; a present file with
zero-length bytes is not rejected. -/
theorem c5_amended_validation (endpoint containerName : String)
    (blobInitialized putFault insertFault : Bool) (token : String) (now : Nat)
    (title caption location : Option String) (file : Option UploadFile) (s : Store)
    (h : file = none ∨ jsFalsy title = true) :
    (∃ msg, (createPhoto endpoint containerName blobInitialized putFault insertFault
        token now title caption location file s).1 = CreateRes.invalidInput msg) ∧
    (createPhoto endpoint containerName blobInitialized putFault insertFault
        token now title caption location file s).2.1 = s ∧
    (createPhoto endpoint containerName blobInitialized putFault insertFault
        token now title caption location file s).2.2 = [] := by
  rcases h with rfl | ht
  · simp [createPhoto]
  · cases file <;> simp [createPhoto, ht]

/-- Witness for the amended C5 at a concrete input: a call with a file but
no title is rejected with no state change and no backend call. -/
theorem c5_amended_witness :
    (∃ msg, (createPhoto "https://acc" "photos" true false false "tok" 7
        none none none (some ⟨[1], "a.jpg", "image/jpeg"⟩)
        ⟨[], [], [], 0, 0⟩).1 = CreateRes.invalidInput msg) ∧
    (createPhoto "https://acc" "photos" true false false "tok" 7
        none none none (some ⟨[1], "a.jpg", "image/jpeg"⟩)
        ⟨[], [], [], 0, 0⟩).2.1 = ⟨[], [], [], 0, 0⟩ ∧
    (createPhoto "https://acc" "photos" true false false "tok" 7
        none none none (some ⟨[1], "a.jpg", "image/jpeg"⟩)
        ⟨[], [], [], 0, 0⟩).2.2 = [] :=
  c5_amended_validation "https://acc" "photos" true false false "tok" 7
    none none none (some ⟨[1], "a.jpg", "image/jpeg"⟩) ⟨[], [], [], 0, 0⟩
    (Or.inr (by decide))

/-! ## C10: falsy optional fields are persisted as NULL -/

theorem jsOrNull_of_ne_empty {c : String} (h : c ≠ "") :
    jsOrNull (some c) = some c := by
  simp [jsOrNull, jsTruthy, String.isEmpty_iff, h]

/-- Characterization of a successful create-photo call (blob client
initialized, both backend calls healthy, validation passed). -/
theorem createPhoto_success (endpoint containerName token : String) (now : Nat)
    (title caption location : Option String) (f : UploadFile) (s : Store)
    (ht : jsFalsy title = false) :
    createPhoto endpoint containerName true false false token now
        title caption location (some f) s =
      (let bn := token ++ "." ++ (jsSplitOn "." f.originalname).getLastD f.originalname
       let p : Photo := ⟨s.nextPhotoId, title.getD "", jsOrNull caption,
         jsOrNull location,
         some (endpoint ++ "/" ++ containerName ++ "/" ++ bn), now⟩
       (CreateRes.created p,
        { s with photos := s.photos ++ [p], blobs := bn :: s.blobs,
                 nextPhotoId := s.nextPhotoId + 1 },
        [Event.putBlob bn, Event.pool, Event.insertPhotoQ])) := by
  simp [createPhoto, uploadImageToBlob, ht]

/-- C10: in every successful create-photo call, a caption or location
supplied as the empty string — or absent, the falsy cases of `|| null` —
is persisted as NULL, and a non-empty supplied value is stored unchanged. -/
theorem c10_falsy_optional_fields_stored_null (endpoint containerName token : String)
    (now : Nat) (title caption location : Option String) (f : UploadFile)
    (s : Store) (ht : jsFalsy title = false) :
    ∃ p, (createPhoto endpoint containerName true false false token now
        title caption location (some f) s).1 = CreateRes.created p ∧
      p ∈ (createPhoto endpoint containerName true false false token now
        title caption location (some f) s).2.1.photos ∧
      p.caption = jsOrNull caption ∧ p.location = jsOrNull location ∧
      ((caption = none ∨ caption = some "") → p.caption = none) ∧
      ((location = none ∨ location = some "") → p.location = none) ∧
      (∀ c, caption = some c → c ≠ "" → p.caption = some c) ∧
      (∀ c, location = some c → c ≠ "" → p.location = some c) := by
  rw [createPhoto_success endpoint containerName token now title caption location
    f s ht]
  refine ⟨_, rfl, by simp, rfl, rfl, ?_, ?_, ?_, ?_⟩
  · rintro (rfl | rfl) <;> rfl
  · rintro (rfl | rfl) <;> rfl
  · rintro c rfl hc
    exact jsOrNull_of_ne_empty hc
  · rintro c rfl hc
    exact jsOrNull_of_ne_empty hc

/-- Witness for C10 at a concrete input: an empty-string caption is stored
as NULL while a non-empty location is stored unchanged. -/
theorem c10_witness :
    ∃ p, (createPhoto "https://acc" "photos" true false false "tok" 7
        (some "t") (some "") (some "loc") (some ⟨[1], "a.jpg", "image/jpeg"⟩)
        ⟨[], [], [], 0, 0⟩).1 = CreateRes.created p ∧
      p ∈ (createPhoto "https://acc" "photos" true false false "tok" 7
        (some "t") (some "") (some "loc") (some ⟨[1], "a.jpg", "image/jpeg"⟩)
        ⟨[], [], [], 0, 0⟩).2.1.photos ∧
      p.caption = jsOrNull (some "") ∧ p.location = jsOrNull (some "loc") ∧
      ((some "" = (none : Option String) ∨ (some "" : Option String) = some "") →
        p.caption = none) ∧
      ((some "loc" = (none : Option String) ∨ (some "loc" : Option String) = some "") →
        p.location = none) ∧
      (∀ c, (some "" : Option String) = some c → c ≠ "" → p.caption = some c) ∧
      (∀ c, (some "loc" : Option String) = some c → c ≠ "" → p.location = some c) :=
  c10_falsy_optional_fields_stored_null "https://acc" "photos" "tok" 7
    (some "t") (some "") (some "loc") ⟨[1], "a.jpg", "image/jpeg"⟩
    ⟨[], [], [], 0, 0⟩ (by decide)

/-! ## C2: deleting a non-existent photo has no side effects -/

/-- C2: for every delete-photo call whose id matches no Photo row (and
whose lookup query itself succeeds), the result is `NotFound`, the store
state is unchanged, no object-store delete call occurs, and the `DELETE`
statement is never executed. -/
theorem c2_delete_missing_id_no_side_effects (containerName : String)
    (blobInitialized blobFault deleteFault : Bool) (id : Nat) (s : Store)
    (hmiss : ∀ p ∈ s.photos, p.id ≠ id) :
    deletePhoto containerName blobInitialized blobFault false deleteFault id s =
      (DeleteRes.notFound, s, [Event.pool, Event.selectImageUrlQ id]) ∧
    (∀ k, Event.deleteBlob k ∉
      (deletePhoto containerName blobInitialized blobFault false deleteFault id s).2.2) ∧
    Event.deletePhotoQ id ∉
      (deletePhoto containerName blobInitialized blobFault false deleteFault id s).2.2 := by
  have hfind : s.photos.find? (fun p => p.id == id) = none := by
    rw [List.find?_eq_none]
    intro p hp
    simpa using hmiss p hp
  have hres : deletePhoto containerName blobInitialized blobFault false deleteFault id s =
      (DeleteRes.notFound, s, [Event.pool, Event.selectImageUrlQ id]) := by
    simp [deletePhoto, hfind]
  refine ⟨hres, ?_, ?_⟩
  · intro k
    rw [hres]
    simp
  · rw [hres]
    simp

/-- Witness for C2 at a concrete input: deleting id 1 when only id 2
exists. -/
theorem c2_witness :
    deletePhoto "photos" true false false false 1
        ⟨[⟨2, "t", none, none, some "u/photos/x.jpg", 0⟩], [], ["x.jpg"], 3, 0⟩ =
      (DeleteRes.notFound,
       ⟨[⟨2, "t", none, none, some "u/photos/x.jpg", 0⟩], [], ["x.jpg"], 3, 0⟩,
       [Event.pool, Event.selectImageUrlQ 1]) :=
  (c2_delete_missing_id_no_side_effects "photos" true false false 1
    ⟨[⟨2, "t", none, none, some "u/photos/x.jpg", 0⟩], [], ["x.jpg"], 3, 0⟩
    (by decide)).1

/-! ## C3: blob deletion is best-effort and never fails the row delete -/

/-- C3: for every delete-photo call on an id that exists (with the two
relational statements healthy), the call returns success and the row is
gone for every blob-client state and every blob-backend outcome — the
best-effort blob step can never fail the overall operation — the `DELETE`
statement always runs, and when the row's `image_url` is not truthy no
object-store delete call occurs at all. -/
theorem c3_delete_existing_succeeds_regardless_of_blob (containerName : String)
    (blobInitialized blobFault : Bool) (id : Nat) (s : Store) (p : Photo)
    (hfind : s.photos.find? (fun q => q.id == id) = some p) :
    (deletePhoto containerName blobInitialized blobFault false false id s).1 =
      DeleteRes.deleted ∧
    (∀ q ∈ (deletePhoto containerName blobInitialized blobFault false false
        id s).2.1.photos, q.id ≠ id) ∧
    Event.deletePhotoQ id ∈
      (deletePhoto containerName blobInitialized blobFault false false id s).2.2 ∧
    (jsTruthy p.image_url = false →
      ∀ k, Event.deleteBlob k ∉
        (deletePhoto containerName blobInitialized blobFault false false id s).2.2) := by
  obtain ⟨⟨bs, evs⟩, hdel⟩ := deleteImageFromBlob_ok containerName blobInitialized
    blobFault (p.image_url.getD "") s.blobs
  by_cases htr : jsTruthy p.image_url = true
  · refine ⟨?_, ?_, ?_, ?_⟩
    · simp [deletePhoto, hfind, htr, hdel]
    · intro q hq
      simp [deletePhoto, hfind, htr, hdel] at hq
      exact hq.2
    · simp [deletePhoto, hfind, htr, hdel]
    · intro hcontra
      rw [htr] at hcontra
      exact absurd hcontra (by simp)
  · simp only [Bool.not_eq_true] at htr
    refine ⟨?_, ?_, ?_, ?_⟩
    · simp [deletePhoto, hfind, htr]
    · intro q hq
      simp [deletePhoto, hfind, htr] at hq
      exact hq.2
    · simp [deletePhoto, hfind, htr]
    · intro _ k
      simp [deletePhoto, hfind, htr]

/-- Witness for C3 at a concrete input: the row (and its comment) are
deleted and the call succeeds even though the blob backend faults. -/
theorem c3_witness :
    (deletePhoto "photos" true true false false 1
        ⟨[⟨1, "t", none, none, some "u/photos/x.jpg", 0⟩], [⟨5, 1, "c", 0⟩],
         ["x.jpg"], 2, 6⟩).1 = DeleteRes.deleted ∧
    (∀ q ∈ (deletePhoto "photos" true true false false 1
        ⟨[⟨1, "t", none, none, some "u/photos/x.jpg", 0⟩], [⟨5, 1, "c", 0⟩],
         ["x.jpg"], 2, 6⟩).2.1.photos, q.id ≠ 1) ∧
    Event.deletePhotoQ 1 ∈
      (deletePhoto "photos" true true false false 1
        ⟨[⟨1, "t", none, none, some "u/photos/x.jpg", 0⟩], [⟨5, 1, "c", 0⟩],
         ["x.jpg"], 2, 6⟩).2.2 ∧
    (jsTruthy (some "u/photos/x.jpg") = false →
      ∀ k, Event.deleteBlob k ∉
        (deletePhoto "photos" true true false false 1
          ⟨[⟨1, "t", none, none, some "u/photos/x.jpg", 0⟩], [⟨5, 1, "c", 0⟩],
           ["x.jpg"], 2, 6⟩).2.2) :=
  c3_delete_existing_succeeds_regardless_of_blob "photos" true true 1
    ⟨[⟨1, "t", none, none, some "u/photos/x.jpg", 0⟩], [⟨5, 1, "c", 0⟩],
     ["x.jpg"], 2, 6⟩ ⟨1, "t", none, none, some "u/photos/x.jpg", 0⟩ (by decide)

/-! ## C4: only the foreign-key-violation error maps to NotFound -/

/-- C4: for every add-comment call with valid (non-blank) text, exactly the
store error with native number 547 — the foreign-key violation — is mapped
to `NotFound`; every other store error surfaces as a generic failure; and
when the store is healthy and the photo does not exist the insert raises
the FK violation, the result is `NotFound`, and no Comment row is
created. -/
theorem c4_fk_violation_mapping (dbFault : Option Nat) (photoId : Nat)
    (comment_text : Option String) (now : Nat) (s : Store)
    (hvalid : (jsFalsy comment_text || (jsTrim (comment_text.getD "") == "")) = false) :
    (∀ n, dbFault = some n →
      ((addComment dbFault photoId comment_text now s).1 = CommentRes.notFound ↔
        n = 547) ∧
      (n ≠ 547 →
        (addComment dbFault photoId comment_text now s).1 = CommentRes.serverError) ∧
      (addComment dbFault photoId comment_text now s).2.1 = s) ∧
    (dbFault = none → (∀ p ∈ s.photos, p.id ≠ photoId) →
      (addComment dbFault photoId comment_text now s).1 = CommentRes.notFound ∧
      (addComment dbFault photoId comment_text now s).2.1 = s) := by
  constructor
  · rintro n rfl
    by_cases h547 : n = 547
    · subst h547
      simp [addComment, insertComment, hvalid]
    · simp [addComment, insertComment, hvalid, h547]
  · rintro rfl hmiss
    have hany : s.photos.any (fun p => p.id == photoId) = false := by
      rw [List.any_eq_false]
      intro p hp
      simpa using hmiss p hp
    simp [addComment, insertComment, hvalid, hany]

/-- Witness for C4 at a concrete input: a healthy store with no photo row
yields the FK violation, mapped to `NotFound`, and no comment row. -/
theorem c4_witness :
    (addComment none 1 (some "Nice!") 0 ⟨[], [], [], 0, 0⟩).1 =
      CommentRes.notFound ∧
    (addComment none 1 (some "Nice!") 0 ⟨[], [], [], 0, 0⟩).2.1 =
      ⟨[], [], [], 0, 0⟩ :=
  (c4_fk_violation_mapping none 1 (some "Nice!") 0 ⟨[], [], [], 0, 0⟩
    (by decide)).2 rfl (by decide)

/-! ## C8: blank comment text is rejected before touching the store -/

/-- C8: for every add-comment call whose text is missing, empty, or
whitespace-only, the result is `InvalidInput`, the state is unchanged, and
no store call of any kind occurs (the trace is empty — no connection
acquired, no insert executed). -/
theorem c8_blank_comment_rejected (dbFault : Option Nat) (photoId : Nat)
    (comment_text : Option String) (now : Nat) (s : Store)
    (h : comment_text = none ∨ ∃ t, comment_text = some t ∧ jsTrim t = "") :
    addComment dbFault photoId comment_text now s =
      (CommentRes.invalidInput, s, []) := by
  rcases h with rfl | ⟨t, rfl, htrim⟩
  · simp [addComment, jsFalsy, jsTruthy]
  · simp [addComment, htrim]

/-- Witness for C8 at a concrete input: whitespace-only text is rejected
with no store call. -/
theorem c8_witness :
    addComment (some 0) 1 (some "   ") 0 ⟨[], [], [], 0, 0⟩ =
      (CommentRes.invalidInput, ⟨[], [], [], 0, 0⟩, []) :=
  c8_blank_comment_rejected (some 0) 1 (some "   ") 0 ⟨[], [], [], 0, 0⟩
    (Or.inr ⟨"   ", rfl, by decide⟩)

/-! ## C9: selectPhotos returns all rows, most recent first -/

/-- C9: for every stored set of Photo rows, `selectPhotos` returns all of
them (a permutation) in non-increasing `created_at` order, and — when the
timestamps are pairwise distinct — in strictly decreasing order. -/
theorem c9_select_photos_ordering (s : Store) :
    (selectPhotos s).Perm s.photos ∧
    (selectPhotos s).Pairwise (fun a b => b.created_at ≤ a.created_at) ∧
    (s.photos.Pairwise (fun a b => a.created_at ≠ b.created_at) →
      (selectPhotos s).Pairwise (fun a b => b.created_at < a.created_at)) := by
  have hperm : (selectPhotos s).Perm s.photos := List.mergeSort_perm s.photos _
  have hsorted0 : (selectPhotos s).Pairwise
      (fun a b : Photo => decide (b.created_at ≤ a.created_at) = true) := by
    apply List.sorted_mergeSort
    · intro a b c hab hbc
      simp at hab hbc ⊢
      omega
    · intro a b
      simp
      omega
  have hsorted : (selectPhotos s).Pairwise
      (fun a b => b.created_at ≤ a.created_at) :=
    hsorted0.imp (fun h => by simpa using h)
  refine ⟨hperm, hsorted, ?_⟩
  intro hdist
  have hne : (selectPhotos s).Pairwise (fun a b => a.created_at ≠ b.created_at) :=
    (hperm.pairwise_iff (fun h => Ne.symm h)).mpr hdist
  exact List.Pairwise.imp₂
    (fun a b hle hne1 => Nat.lt_of_le_of_ne hle (Ne.symm hne1)) hsorted hne

/-- Witness for C9 at a concrete store with two rows of distinct
timestamps: all three conclusions, with the distinctness hypothesis of the
strict part discharged there. -/
theorem c9_witness :
    (selectPhotos ⟨[⟨0, "a", none, none, none, 1⟩, ⟨1, "b", none, none, none, 2⟩],
        [], [], 2, 0⟩).Perm
      [⟨0, "a", none, none, none, 1⟩, ⟨1, "b", none, none, none, 2⟩] ∧
    (selectPhotos ⟨[⟨0, "a", none, none, none, 1⟩, ⟨1, "b", none, none, none, 2⟩],
        [], [], 2, 0⟩).Pairwise (fun a b => b.created_at ≤ a.created_at) ∧
    (selectPhotos ⟨[⟨0, "a", none, none, none, 1⟩, ⟨1, "b", none, none, none, 2⟩],
        [], [], 2, 0⟩).Pairwise (fun a b => b.created_at < a.created_at) :=
  ⟨(c9_select_photos_ordering
      ⟨[⟨0, "a", none, none, none, 1⟩, ⟨1, "b", none, none, none, 2⟩],
       [], [], 2, 0⟩).1,
   (c9_select_photos_ordering
      ⟨[⟨0, "a", none, none, none, 1⟩, ⟨1, "b", none, none, none, 2⟩],
       [], [], 2, 0⟩).2.1,
   (c9_select_photos_ordering
      ⟨[⟨0, "a", none, none, none, 1⟩, ⟨1, "b", none, none, none, 2⟩],
       [], [], 2, 0⟩).2.2 (by decide)⟩

end MediaBackend
